import Mathlib

/-!
Verification development for the ChatBot_NETSOL retrieval-orchestration core.

Shallow embedding of:
  app/llm/gemini.py        (ask_gemini)
  app/search/tavily_search.py (TavilySearcher.search)
  app/agent/langgraph_agent.py (ChatbotAgent: decide_tool, use_search,
                                generate_answer, run)
  app/rag/retriever.py     (MultiUserRetriever: build_user_index,
                            get_user_retriever, query_user_documents)

External effects (LLM calls, web provider, FAISS index I/O) are passed in as
explicit outcome parameters (Except for calls that may raise, Bool flags for
exception points); the embedded functions are total Lean functions, which is
exactly the never-raises behaviour the Python code obtains with try/except.
-/

namespace ChatBot

/-! ### app/llm/gemini.py -/

/-- Embedding of ask_gemini.  hasKey models the GOOGLE_API_KEY check; gen is
the outcome of the external generate_content call: Except.error for a raised
exception (caught by the bare except), Except.ok (some t) for a response with
text t, Except.ok none for a response with empty text.  ask_gemini never
raises: every branch returns a string. -/
def askGemini (hasKey : Bool) (gen : Except String (Option String)) : String :=
  if ¬ hasKey then
    "Error: Google API key not configured. Please set GOOGLE_API_KEY environment variable."
  else
    match gen with
    | Except.ok (some t) => t
    | Except.ok none => "Error: No response generated from Gemini."
    | Except.error e => "Error: Failed to get response from Gemini. " ++ e

/-! ### app/search/tavily_search.py -/

/-- A raw result dict from the Tavily provider: each field is read with
result.get(key, default), so each may be absent.  The float score field is
not modeled (no claim touches it). -/
structure RawResult where
  title : Option String
  content : Option String
  url : Option String
deriving DecidableEq, Repr

/-- A normalized search result as built by TavilySearcher.search. -/
structure SearchResult where
  title : String
  content : String
  url : String
deriving DecidableEq, Repr

/-- Embedding of the per-result normalization in TavilySearcher.search. -/
def normalizeResult (r : RawResult) : SearchResult :=
  ⟨r.title.getD "", r.content.getD "", r.url.getD ""⟩

/-- Embedding of TavilySearcher.search.  configured models self.client being
set (TAVILY_API_KEY present); resp is the outcome of the provider call:
Except.error for any raised exception (caught by the except clause).
The function is total: it never propagates an exception. -/
def tavilySearch (configured : Bool) (resp : Except String (List RawResult)) :
    List SearchResult :=
  if ¬ configured then []
  else
    match resp with
    | Except.error _ => []
    | Except.ok rs => rs.map normalizeResult

/-! ### app/agent/langgraph_agent.py -/

/-- ASCII lowering of one character, the effect of Python str.lower on the
ASCII range (the labels and their variants are ASCII). -/
def lowerChar (c : Char) : Char :=
  if 'A' ≤ c ∧ c ≤ 'Z' then Char.ofNat (c.toNat + 32) else c

/-- Embedding of Python str.lower (ASCII range). -/
def pyLower (s : String) : String := ⟨s.data.map lowerChar⟩

/-- Drop leading whitespace from a character list. -/
def dropLeadingSpace : List Char → List Char
  | [] => []
  | c :: cs => if c.isWhitespace then dropLeadingSpace cs else c :: cs

/-- Embedding of Python str.strip with no argument: remove whitespace from
both ends. -/
def pyStrip (s : String) : String :=
  ⟨(dropLeadingSpace (dropLeadingSpace s.data).reverse).reverse⟩

/-- The three labels accepted by decide_tool. -/
def classifierLabels : List String := ["rag", "search", "both"]

/-- Embedding of ChatbotAgent.decide_tool.  out is the outcome of the
ask_gemini classification call (Except.error for a raised exception, caught
by the bare except).  The code strips and lowercases the output before the
membership test; anything outside the three labels falls back to "rag". -/
def decideTool (out : Except String String) : String :=
  match out with
  | Except.error _ => "rag"
  | Except.ok s =>
    let d := pyLower (pyStrip s)
    if d ∈ classifierLabels then d else "rag"

/-- Embedding of ChatbotAgent.use_search: the try/except around
tavily_searcher.search maps any raised exception to an empty result list. -/
def useSearch (outcome : Except String (List SearchResult)) : List SearchResult :=
  match outcome with
  | Except.ok rs => rs
  | Except.error _ => []

/-- Origin tag of a piece of evidence in the prompt context. -/
inductive Tag where
  | doc
  | web
deriving DecidableEq, Repr

/-- Boolean test for the web tag. -/
def isWeb : Tag → Bool
  | Tag.web => true
  | Tag.doc => false

/-- Per-result formatting in generate_answer for a web search result. -/
def formatSearchResult (r : SearchResult) : String :=
  "SOURCE: " ++ r.title ++ " (" ++ r.url ++ ")\n" ++ r.content

/-- Embedding of the context_parts assembly in ChatbotAgent.generate_answer
(string level, one entry per part with its origin tag): the DOCUMENT CONTEXT
part is included iff decision is in [rag, both] and rag_context is truthy
(a nonempty string); the WEB SEARCH RESULTS part is included iff decision is
in [search, both] and search_results is truthy (a nonempty list), with the
results capped at 3. -/
def contextParts (decision : String) (ragContext : String)
    (searchResults : List SearchResult) : List (Tag × String) :=
  (if (decision = "rag" ∨ decision = "both") ∧ ragContext ≠ "" then
    [(Tag.doc, "DOCUMENT CONTEXT:\n" ++ ragContext)]
  else []) ++
  (if (decision = "search" ∨ decision = "both") ∧ searchResults ≠ [] then
    [(Tag.web, "WEB SEARCH RESULTS:\n" ++
        String.intercalate "\n\n" ((searchResults.take 3).map formatSearchResult))]
  else [])

/-- Snippet-level view of the same assembly, composed with the fact that
rag_context is the concatenation, in retriever order, of the document
snippets produced by query_user_documents (a nonempty snippet list joins to
a nonempty string).  Document snippets appear in the prompt before the web
snippets; web snippets are capped at 3 (search_results[:3]). -/
def mergedBundle (decision : String) (docSnips : List String)
    (webSnips : List String) : List (Tag × String) :=
  (if (decision = "rag" ∨ decision = "both") ∧ docSnips ≠ [] then
    docSnips.map (fun s => (Tag.doc, s))
  else []) ++
  (if (decision = "search" ∨ decision = "both") ∧ webSnips ≠ [] then
    (webSnips.take 3).map (fun s => (Tag.web, s))
  else [])

/-- Embedding of the answer step of ChatbotAgent.generate_answer: synth is
the outcome of the ask_gemini(final_prompt).strip() evaluation; a raised
exception is replaced by the fixed apology string of the except branch.
Note askGemini itself is total, so when the synthesizer is wired through
askGemini the Except.ok branch is the one taken. -/
def generateAnswerNode (synth : Except String String) : String :=
  match synth with
  | Except.ok a => pyStrip a
  | Except.error _ =>
    "I apologize, but I encountered an error while generating the response."

/-- Final agent state, reduced to the field ChatbotAgent.run reads. -/
structure AgentResult where
  final_answer : String
deriving DecidableEq, Repr

/-- Embedding of ChatbotAgent.run: graphOutcome is the outcome of
self.graph.invoke(initial_state); any raised exception is caught and mapped
to a fixed apology string, so run always returns a string. -/
def runAgent (graphOutcome : Except String AgentResult) : String :=
  match graphOutcome with
  | Except.ok result => result.final_answer
  | Except.error _ =>
    "I apologize, but I encountered an error while processing your request."

/-! ### app/rag/retriever.py

The MultiUserRetriever is modeled as a state machine.  The state keeps the
persisted on-disk index per user (store) and the in-memory retriever cache
per user (cache).  An index is represented by a ghost build generation: a
counter incremented on every successful build, so that distinct builds are
distinguishable; get hands out exactly the generation it loaded or cached.
File-system and FAISS exception points are explicit Bool parameters. -/

/-- A retrieved document chunk: metadata source, optional page, and text. -/
structure Chunk where
  source : String
  page : Option Nat
  content : String
deriving DecidableEq, Repr

/-- State of the MultiUserRetriever: persisted index (by ghost generation)
per user, cached retriever (by ghost generation) per user, and the global
build counter used to mint generations. -/
structure RetrieverState where
  store : String → Option Nat
  cache : String → Option Nat
  counter : Nat

/-- The state at process start: empty cache, no persisted index. -/
def initState : RetrieverState := ⟨fun _ => none, fun _ => none, 0⟩

/-- Embedding of MultiUserRetriever.build_user_index.  loadedDocs is the
list of documents the PyPDFLoader loop produced (missing files are skipped
by that loop); buildExc models an exception raised inside the try block
before save_local succeeds (loading, splitting, embedding, or the save
itself; the statements after save_local cannot raise).  On success the new
index is persisted (fresh generation) and the cached retriever is dropped;
on any failure the function returns false and the state is untouched. -/
def buildUserIndex (st : RetrieverState) (userId : String)
    (loadedDocs : List String) (buildExc : Bool) : Bool × RetrieverState :=
  if buildExc then (false, st)
  else if loadedDocs.isEmpty then (false, st)
  else
    let g := st.counter + 1
    (true,
      { store := fun v => if v = userId then some g else st.store v
        cache := fun v => if v = userId then none else st.cache v
        counter := g })

/-- Embedding of MultiUserRetriever.get_user_retriever: return the cached
retriever if present; otherwise, if no persisted index exists, return none
(printing only); otherwise load it — loadExc models FAISS.load_local
raising (also covering the case of an index directory created by a failed
build that holds no index files) — and cache it on success. -/
def getUserRetriever (st : RetrieverState) (userId : String) (loadExc : Bool) :
    Option Nat × RetrieverState :=
  match st.cache userId with
  | some r => (some r, st)
  | none =>
    match st.store userId with
    | none => (none, st)
    | some g =>
      if loadExc then (none, st)
      else (some g,
        { st with cache := fun v => if v = userId then some g else st.cache v })

/-- The source tag built for one chunk in query_user_documents. -/
def chunkTag (c : Chunk) : String :=
  match c.page with
  | some p => c.source ++ "#p" ++ toString p
  | none => c.source

/-- One context block in query_user_documents. -/
def chunkBlock (c : Chunk) : String :=
  "[SOURCE: " ++ chunkTag c ++ "]\n" ++ c.content

/-- Embedding of MultiUserRetriever.query_user_documents.  retrieved is
what retriever.get_relevant_documents returned for the query (the code then
keeps the first top_k); queryExc models an exception raised by that call.
Returns the (context text, raw docs) pair together with the updated state
(the cache may have been filled by get_user_retriever). -/
def queryUserDocuments (st : RetrieverState) (userId : String) (_q : String)
    (topK : Nat) (loadExc : Bool) (retrieved : List Chunk) (queryExc : Bool) :
    (String × List Chunk) × RetrieverState :=
  match getUserRetriever st userId loadExc with
  | (none, st2) => (("No documents available for this user.", []), st2)
  | (some _, st2) =>
    if queryExc then (("Error retrieving documents.", []), st2)
    else
      let rawDocs := retrieved.take topK
      if rawDocs.isEmpty then
        (("No relevant information found in your documents.", []), st2)
      else
        ((String.intercalate "\n\n" (rawDocs.map chunkBlock), rawDocs), st2)

/-- An operation on the shared MultiUserRetriever instance, with its
external outcomes. -/
inductive Op where
  | build (userId : String) (loadedDocs : List String) (buildExc : Bool)
  | get (userId : String) (loadExc : Bool)
  | query (userId : String) (q : String) (topK : Nat) (loadExc : Bool)
      (retrieved : List Chunk) (queryExc : Bool)

/-- State transition of one operation. -/
def applyOp (st : RetrieverState) : Op → RetrieverState
  | Op.build u docs e => (buildUserIndex st u docs e).2
  | Op.get u e => (getUserRetriever st u e).2
  | Op.query u q k e r qe => (queryUserDocuments st u q k e r qe).2

/-- Run a sequence of operations from a state. -/
def runOps (st : RetrieverState) : List Op → RetrieverState
  | [] => st
  | op :: rest => runOps (applyOp st op) rest

/-- A state is reachable when some operation sequence produces it from the
process-start state. -/
def reachable (st : RetrieverState) : Prop :=
  ∃ ops : List Op, runOps initState ops = st

/-- Well-formedness invariant of the retriever state: every cached
retriever is the one loaded from the currently persisted index of that
user, and every persisted generation was minted by the counter. -/
def stateWF (st : RetrieverState) : Prop :=
  (∀ u g, st.cache u = some g → st.store u = some g) ∧
  (∀ u g, st.store u = some g → g ≤ st.counter)

/-- Duplicate-chunk inputs used to exercise query_user_documents. -/
def dupChunkA : Chunk := ⟨"a.pdf", some 1, "t1"⟩

/-- A second chunk with the same (source, page) pair as dupChunkA. -/
def dupChunkB : Chunk := ⟨"a.pdf", some 1, "t2"⟩

/-- The retriever state after one successful build for user u1. -/
def builtState : RetrieverState := runOps initState [Op.build "u1" ["d"] false]

/-! ### Helper lemmas -/

/-- The start state is well formed. -/
theorem stateWF_initState : stateWF initState := by
  constructor <;> intro u g h <;> simp [initState] at h

/-- build_user_index preserves the state invariant. -/
theorem stateWF_buildUserIndex (st : RetrieverState) (h : stateWF st)
    (u : String) (docs : List String) (e : Bool) :
    stateWF (buildUserIndex st u docs e).2 := by
  unfold buildUserIndex
  by_cases he : e
  · simpa [he] using h
  · by_cases hd : docs.isEmpty
    · simpa [he, hd] using h
    · simp only [he, hd, Bool.false_eq_true, if_false, if_true]
      constructor
      · intro v g hv
        dsimp only at hv ⊢
        by_cases hu : v = u
        · simp [hu] at hv
        · simp only [hu, if_false] at hv ⊢
          exact h.1 v g hv
      · intro v g hv
        dsimp only at hv ⊢
        by_cases hu : v = u
        · simp only [hu, if_true, Option.some.injEq] at hv
          omega
        · simp only [hu, if_false] at hv
          exact Nat.le_trans (h.2 v g hv) (Nat.le_succ _)

/-- get_user_retriever preserves the state invariant. -/
theorem stateWF_getUserRetriever (st : RetrieverState) (h : stateWF st)
    (u : String) (e : Bool) :
    stateWF (getUserRetriever st u e).2 := by
  unfold getUserRetriever
  cases hc : st.cache u with
  | some r => exact h
  | none =>
    cases hs : st.store u with
    | none => exact h
    | some g =>
      by_cases he : e
      · simpa [he] using h
      · simp only [he, Bool.false_eq_true, if_false]
        constructor
        · intro v g0 hv
          by_cases hu : v = u
          · subst hu
            simp only [if_true] at hv
            rw [hs]
            exact hv
          · simp only [hu, if_false] at hv
            exact h.1 v g0 hv
        · exact h.2

/-- query_user_documents changes the state exactly as its internal
get_user_retriever call does. -/
theorem queryUserDocuments_state (st : RetrieverState) (u q : String)
    (k : Nat) (le : Bool) (r : List Chunk) (qe : Bool) :
    (queryUserDocuments st u q k le r qe).2 = (getUserRetriever st u le).2 := by
  unfold queryUserDocuments
  split
  case _ st2 heq => rw [heq]
  case _ v st2 heq =>
    rw [heq]
    by_cases hqe : qe
    · simp [hqe]
    · by_cases hr : (r.take k).isEmpty <;> simp [hqe, hr]

/-- Each operation preserves the state invariant. -/
theorem stateWF_applyOp (st : RetrieverState) (h : stateWF st) (op : Op) :
    stateWF (applyOp st op) := by
  cases op with
  | build u docs e => exact stateWF_buildUserIndex st h u docs e
  | get u e => exact stateWF_getUserRetriever st h u e
  | query u q k e r qe =>
    show stateWF (queryUserDocuments st u q k e r qe).2
    rw [queryUserDocuments_state]
    exact stateWF_getUserRetriever st h u e

/-- Operation sequences preserve the state invariant. -/
theorem stateWF_runOps (st : RetrieverState) (h : stateWF st) (ops : List Op) :
    stateWF (runOps st ops) := by
  induction ops generalizing st with
  | nil => exact h
  | cons op rest ih => exact ih (applyOp st op) (stateWF_applyOp st h op)

/-- Every reachable state is well formed: a cached retriever always matches
the persisted index, and persisted generations never exceed the counter. -/
theorem stateWF_reachable (st : RetrieverState) (h : reachable st) :
    stateWF st := by
  obtain ⟨ops, hops⟩ := h
  rw [← hops]
  exact stateWF_runOps initState stateWF_initState ops

/-! ### Claim theorems -/

/-- C1 counterexample: the classifier output "SEARCH" is not one of the
three labels, yet decide_tool sets the decision to "search" (the code
strips and lowercases before the membership test), not to the default
"rag" — refuting the claim that any output other than the three labels is
mapped to the default. -/
theorem decideTool_nonlabel_cex :
    decideTool (Except.ok "SEARCH") = "search" ∧
    decideTool (Except.ok "SEARCH") ≠ "rag" ∧
    "SEARCH" ∉ classifierLabels := by
  decide

/-- C1 (amended): if the classification call raises, or its output after
stripping whitespace and lowercasing is not one of the three labels rag,
search, both, then decide_tool sets the decision to the default "rag"; in
particular a classifier that errors on every call always yields "rag" and
never crashes (decideTool is total). -/
theorem decideTool_defaults (s : String)
    (h : pyLower (pyStrip s) ∉ classifierLabels) :
    decideTool (Except.ok s) = "rag" ∧
    ∀ e : String, decideTool (Except.error e) = "rag" := by
  refine ⟨?_, fun e => rfl⟩
  simp [decideTool, h]

/-- Witness for decideTool_defaults at the classifier output "banana". -/
theorem decideTool_defaults_witness :
    decideTool (Except.ok "banana") = "rag" ∧
    decideTool (Except.error "boom") = "rag" := by
  have h := decideTool_defaults "banana" (by decide)
  exact ⟨h.1, h.2 "boom"⟩

/-- C2: in any reachable retriever state, after a successful
build_user_index for a user, any subsequent get_user_retriever for that
user that returns a handle returns one whose build generation is strictly
greater than the generation of any handle get_user_retriever returned
before the rebuild — the pre-rebuild handle is never served again. -/
theorem rebuild_bumps_generation (st : RetrieverState) (hreach : reachable st)
    (u : String) (docs : List String) (exc : Bool)
    (hsucc : (buildUserIndex st u docs exc).1 = true)
    (g gNew : Nat) (preLoadExc postLoadExc : Bool)
    (hpre : (getUserRetriever st u preLoadExc).1 = some g)
    (hpost : (getUserRetriever (buildUserIndex st u docs exc).2 u postLoadExc).1
      = some gNew) :
    g < gNew := by
  have hwf := stateWF_reachable st hreach
  by_cases he : exc
  · simp [buildUserIndex, he] at hsucc
  by_cases hd : docs.isEmpty
  · simp [buildUserIndex, he, hd] at hsucc
  have hstate : (buildUserIndex st u docs exc).2 =
      ⟨fun v => if v = u then some (st.counter + 1) else st.store v,
       fun v => if v = u then none else st.cache v,
       st.counter + 1⟩ := by
    simp [buildUserIndex, he, hd]
  rw [hstate] at hpost
  by_cases hp : postLoadExc
  · simp [getUserRetriever, hp] at hpost
  · simp only [getUserRetriever, hp] at hpost
    simp at hpost
    have hg : g ≤ st.counter := by
      unfold getUserRetriever at hpre
      cases hc : st.cache u with
      | some r0 =>
        rw [hc] at hpre
        simp only [Option.some.injEq] at hpre
        subst hpre
        exact hwf.2 u _ (hwf.1 u _ hc)
      | none =>
        rw [hc] at hpre
        cases hs : st.store u with
        | none => rw [hs] at hpre; simp at hpre
        | some g0 =>
          rw [hs] at hpre
          by_cases hl : preLoadExc
          · simp [hl] at hpre
          · simp only [hl, Bool.false_eq_true, if_false,
              Option.some.injEq] at hpre
            subst hpre
            exact hwf.2 u _ hs
    omega

/-- Witness for rebuild_bumps_generation: one successful build for u1 gives
generation 1; a second successful build gives a handle with generation 2. -/
theorem rebuild_bumps_generation_witness :
    (buildUserIndex (runOps initState [Op.build "u1" ["d"] false])
      "u1" ["d2"] false).1 = true ∧ (1 : Nat) < 2 :=
  ⟨rfl, rebuild_bumps_generation _ ⟨[Op.build "u1" ["d"] false], rfl⟩
    "u1" ["d2"] false rfl 1 2 false false rfl rfl⟩

/-- C3: for any rag_context string and any search results, the context
assembled by generate_answer under decision "rag" contains no web-tagged
part, the one assembled under decision "search" contains no document-tagged
part, and under decision "both" with empty rag context and empty search
results the assembled context is empty. -/
theorem contextParts_decision_purity (rc : String) (srs : List SearchResult) :
    ((contextParts "rag" rc srs).all fun p => ! isWeb p.1) = true ∧
    ((contextParts "search" rc srs).all fun p => isWeb p.1) = true ∧
    contextParts "both" "" [] = [] := by
  refine ⟨?_, ?_, by simp [contextParts]⟩
  · by_cases hrc : rc = "" <;> simp [contextParts, hrc, isWeb]
  · by_cases hs : srs = [] <;> simp [contextParts, hs, isWeb]

/-- C4: under decision "both" the merged evidence is exactly the document
snippets, in retriever order, followed by the web snippets in provider
order (capped at 3); in particular document snippets d1, d2 and web snippet
w1 merge to the sequence d1, d2, w1. -/
theorem mergedBundle_doc_before_web (ds ws : List String) :
    mergedBundle "both" ds ws =
      ds.map (fun s => (Tag.doc, s)) ++
        (ws.take 3).map (fun s => (Tag.web, s)) ∧
    mergedBundle "both" ["d1", "d2"] ["w1"] =
      [(Tag.doc, "d1"), (Tag.doc, "d2"), (Tag.web, "w1")] := by
  constructor
  · by_cases hd : ds = [] <;> by_cases hw : ws = [] <;>
      simp [mergedBundle, hd, hw]
  · decide

/-- C5: in any reachable retriever state, for a user with no persisted
index, query_user_documents returns the fixed no-documents message and an
empty snippet list (and, being a total function, never raises). -/
theorem no_index_query_empty (st : RetrieverState) (hreach : reachable st)
    (u q : String) (k : Nat) (le : Bool) (retrieved : List Chunk) (qe : Bool)
    (hnone : st.store u = none) :
    (queryUserDocuments st u q k le retrieved qe).1 =
      ("No documents available for this user.", []) := by
  have hwf := stateWF_reachable st hreach
  have hc : st.cache u = none := by
    cases hc : st.cache u with
    | none => rfl
    | some g =>
      have hg := hwf.1 u g hc
      rw [hnone] at hg
      cases hg
  have hget : getUserRetriever st u le = (none, st) := by
    unfold getUserRetriever
    rw [hc, hnone]
  unfold queryUserDocuments
  rw [hget]

/-- Witness for no_index_query_empty at the start state. -/
theorem no_index_query_empty_witness :
    initState.store "u1" = none ∧
    (queryUserDocuments initState "u1" "q" 4 false [] false).1 =
      ("No documents available for this user.", []) :=
  ⟨rfl, no_index_query_empty initState ⟨[], rfl⟩ "u1" "q" 4 false [] false rfl⟩

/-- C6: TavilySearcher.search returns an empty result list when the
TAVILY_API_KEY credential is unconfigured, and maps any provider exception
to an empty result; the agent's use_search node likewise maps a raised
exception to an empty list.  All three functions are total, so no exception
propagates to the caller. -/
theorem webSearch_absorbs_failures (resp : Except String (List RawResult))
    (e : String) :
    tavilySearch false resp = [] ∧
    tavilySearch true (Except.error e) = [] ∧
    useSearch (Except.error e) = [] :=
  ⟨rfl, rfl, rfl⟩

/-- C7 counterexample: when the generation call fails with "timeout",
ask_gemini returns the plain string "Error: Failed to get response from
Gemini. timeout"; generate_answer stores it as the final answer and run
hands it to the caller as an ordinary answer string — no distinguishable
SynthesisUnavailable-kind error is surfaced, refuting the claim. -/
theorem synthesis_error_plain_string_cex :
    askGemini true (Except.error "timeout") =
      "Error: Failed to get response from Gemini. timeout" ∧
    generateAnswerNode (Except.ok (askGemini true (Except.error "timeout"))) =
      "Error: Failed to get response from Gemini. timeout" ∧
    runAgent (Except.ok
        ⟨generateAnswerNode (Except.ok (askGemini true (Except.error "timeout")))⟩) =
      "Error: Failed to get response from Gemini. timeout" := by
  refine ⟨rfl, by decide, by decide⟩

/-- C7 (amended): a failing generation call is absorbed, not surfaced: for
every error e, ask_gemini converts it into the error-prefixed answer string,
an exception reaching generate_answer is replaced by the fixed apology
string, and a successful string is stripped and returned as the answer —
the chat turn always completes with a plain string. -/
theorem synthesis_failure_absorbed (e : String) :
    askGemini true (Except.error e) =
      "Error: Failed to get response from Gemini. " ++ e ∧
    generateAnswerNode (Except.error e) =
      "I apologize, but I encountered an error while generating the response." ∧
    ∀ a : String, generateAnswerNode (Except.ok a) = pyStrip a :=
  ⟨rfl, rfl, fun _ => rfl⟩

/-- C8 counterexample: with an index present for u1, two retrieved chunks
carrying the identical (source, page) pair ("a.pdf", page 1) are both
returned by query_user_documents — the (source, locator) pairs of the
result are not pairwise distinct, refuting the deduplication claim. -/
theorem query_duplicates_kept_cex :
    (queryUserDocuments builtState "u1" "q" 4 false [dupChunkA, dupChunkB]
        false).1.2.map (fun c => (c.source, c.page)) =
      [("a.pdf", some 1), ("a.pdf", some 1)] ∧
    ¬ ((queryUserDocuments builtState "u1" "q" 4 false [dupChunkA, dupChunkB]
        false).1.2.map (fun c => (c.source, c.page))).Nodup := by
  decide

/-- C8 (amended): query_user_documents performs no deduplication: on a
present handle with no retrieval exception it returns exactly the first
top_k retrieved chunks, one snippet per chunk, duplicates included. -/
theorem query_returns_take_topK (st : RetrieverState) (u q : String)
    (k : Nat) (le : Bool) (retrieved : List Chunk)
    (hhandle : (getUserRetriever st u le).1.isSome = true) :
    (queryUserDocuments st u q k le retrieved false).1.2 =
      retrieved.take k := by
  unfold queryUserDocuments
  split
  case _ st2 heq =>
    rw [heq] at hhandle
    simp at hhandle
  case _ v st2 heq =>
    simp only [Bool.false_eq_true, if_false]
    by_cases hr : (retrieved.take k).isEmpty
    · simp only [hr, if_true]
      rw [List.isEmpty_iff] at hr
      exact hr.symm
    · simp [hr]

/-- Witness for query_returns_take_topK on the built state for u1. -/
theorem query_returns_take_topK_witness :
    (getUserRetriever builtState "u1" false).1.isSome = true ∧
    (queryUserDocuments builtState "u1" "q" 4 false [dupChunkA, dupChunkB]
        false).1.2 = [dupChunkA, dupChunkB] := by
  refine ⟨rfl, ?_⟩
  have h := query_returns_take_topK builtState "u1" "q" 4 false
    [dupChunkA, dupChunkB] rfl
  simpa using h

/-- C9: ChatbotAgent.run is total and returns a string for every outcome
of the graph invocation: a raised exception is caught and mapped to the
fixed apology message, and a normal result yields its final_answer. -/
theorem runAgent_total (e : String) (r : AgentResult) :
    runAgent (Except.error e) =
      "I apologize, but I encountered an error while processing your request." ∧
    runAgent (Except.ok r) = r.final_answer :=
  ⟨rfl, rfl⟩

/-- C10: whenever build_user_index fails (returns false, because nothing
was loaded or an exception occurred before the new index was saved), the
retriever state — cached retriever and persisted index alike — is exactly
the state before the call. -/
theorem failed_build_leaves_state (st : RetrieverState) (u : String)
    (docs : List String) (exc : Bool)
    (hfail : (buildUserIndex st u docs exc).1 = false) :
    (buildUserIndex st u docs exc).2 = st := by
  unfold buildUserIndex at hfail ⊢
  by_cases he : exc
  · simp [he]
  · by_cases hd : docs.isEmpty
    · simp [he, hd]
    · simp [he, hd] at hfail

/-- Witness for failed_build_leaves_state: a build with no loadable
documents fails and leaves the start state unchanged. -/
theorem failed_build_leaves_state_witness :
    (buildUserIndex initState "u1" [] false).1 = false ∧
    (buildUserIndex initState "u1" [] false).2 = initState :=
  ⟨rfl, failed_build_leaves_state initState "u1" [] false rfl⟩

end ChatBot
